import Mathlib

/-!
Shallow embedding of `src/api/blob.go` (package `api` of crypki): the blob
endpoints `GetBlobAvailableSigningKeys`, `GetBlobSigningKey`, `PostSignBlob`
and the hash-algorithm resolver `getSignerOpts`, together with the parts of
their environment that file uses: the `KeyUsages` authorization table
(a Go `map[string]map[string]bool`), the external signer (`s.Sign`,
`s.GetBlobSigningPublicKey`), Go's `base64.StdEncoding`, gRPC status
construction, and the per-call deferred log record.

Go `byte` values are modelled as `Nat` (always below 256 where produced),
byte slices as `List Nat`, Go `nil` pointers as `Option.none`, and a Go
`(T, error)` return as `Except GrpcStatus T` at the API boundary.  The
elapsed time printed by the deferred `log.Printf` is an external
observation and is passed in as a parameter `et`.
-/

namespace Crypki

/- ---------------------------------------------------------------------- -/
/- Endpoint constant and the KeyUsages table                               -/
/- ---------------------------------------------------------------------- -/

/-- Modelled from the spec: `config.BlobEndpoint` (package `config`, not
under `src/`) is the endpoint tag identifying the blob signing use-case;
the spec calls it "blob".  Every use in `blob.go` goes through this one
constant, so its concrete text is irrelevant to the claims. -/
def blobEndpoint : String := "blob"

/-- Go map lookup `m[k]` on a `map[string]bool`, with the zero value
`false` for an absent key.  The map itself is modelled as an association
list (first binding wins, as a map has at most one binding per key). -/
def lookupBool (m : List (String × Bool)) (k : String) : Bool :=
  match m.lookup k with
  | some b => b
  | none => false

/- ---------------------------------------------------------------------- -/
/- Go standard base64 (`encoding/base64`, `StdEncoding`)                   -/
/- ---------------------------------------------------------------------- -/

/-- The 64 characters of the standard base64 alphabet, as in Go's
`base64.StdEncoding`. -/
def base64Alphabet : List Char :=
  "ABCDEFGHIJKLMNOPQRSTUVWXYZabcdefghijklmnopqrstuvwxyz0123456789+/".data

/-- Value of one base64 character (Go's `decodeMap`): `some v` for the 64
alphabet characters, `none` for everything else, the padding `'='`
included. -/
def decodeMap (c : Char) : Option Nat :=
  if 'A' ≤ c ∧ c ≤ 'Z' then some (c.toNat - 'A'.toNat)
  else if 'a' ≤ c ∧ c ≤ 'z' then some (c.toNat - 'a'.toNat + 26)
  else if '0' ≤ c ∧ c ≤ '9' then some (c.toNat - '0'.toNat + 52)
  else if c = '+' then some 62
  else if c = '/' then some 63
  else none

/-- Error text of Go's `base64.CorruptInputError`.  Go appends the byte
offset of the offending input byte; nothing in `blob.go` or in the claims
inspects that offset, so it is omitted from the model. -/
def base64CorruptMsg : String := "illegal base64 data at input byte"

/-- Go's `decodeQuantum` loop, applied to input from which `'\r'` and
`'\n'` have already been removed (Go skips them at every position, which
is equivalent to filtering them out first).  Quanta of four data
characters yield three bytes; a final quantum may be three data characters
followed by `=` (two bytes) or two data characters followed by `==` (one
byte); padding must end the input (trailing garbage is an error); any
other shape — a lone trailing character, an unpadded short quantum, a
non-alphabet byte, misplaced padding — is a `CorruptInputError`.  Like
Go's non-strict `StdEncoding`, nonzero discarded bits in the last
character before padding are silently dropped. -/
def decodeGroups : List Char → Except String (List Nat)
  | [] => .ok []
  | c1 :: c2 :: c3 :: c4 :: rest =>
    match decodeMap c1, decodeMap c2 with
    | some v1, some v2 =>
      match decodeMap c3 with
      | some v3 =>
        match decodeMap c4 with
        | some v4 =>
          match decodeGroups rest with
          | .ok bs =>
            .ok ([v1 * 4 + v2 / 16, (v2 % 16) * 16 + v3 / 4, (v3 % 4) * 64 + v4] ++ bs)
          | .error e => .error e
        | none =>
          if c4 = '=' then
            if rest = [] then .ok [v1 * 4 + v2 / 16, (v2 % 16) * 16 + v3 / 4]
            else .error base64CorruptMsg
          else .error base64CorruptMsg
      | none =>
        if c3 = '=' then
          if c4 = '=' ∧ rest = [] then .ok [v1 * 4 + v2 / 16]
          else .error base64CorruptMsg
        else .error base64CorruptMsg
    | _, _ => .error base64CorruptMsg
  | _ => .error base64CorruptMsg

/-- Go's `base64.StdEncoding.DecodeString`. -/
def DecodeString (s : String) : Except String (List Nat) :=
  decodeGroups (s.data.filter (fun c => !(c == '\n' || c == '\r')))

/-- Character of the standard alphabet at a 6-bit index. -/
def encodeChar (n : Nat) : Char := base64Alphabet.getD (n % 64) 'A'

/-- Go's `base64.StdEncoding.EncodeToString` on a byte list: groups of
three bytes become four alphabet characters; a final group of one or two
bytes is padded with `==` or `=`. -/
def EncodeToString : List Nat → String
  | [] => ""
  | [b1] =>
    String.mk [encodeChar (b1 / 4), encodeChar ((b1 % 4) * 16), '=', '=']
  | [b1, b2] =>
    String.mk [encodeChar (b1 / 4), encodeChar ((b1 % 4) * 16 + b2 / 16),
               encodeChar ((b2 % 16) * 4), '=']
  | b1 :: b2 :: b3 :: rest =>
    String.mk [encodeChar (b1 / 4), encodeChar ((b1 % 4) * 16 + b2 / 16),
               encodeChar ((b2 % 16) * 4 + b3 / 64), encodeChar (b3 % 64)]
      ++ EncodeToString rest

/- ---------------------------------------------------------------------- -/
/- Protobuf message types used by blob.go                                  -/
/- ---------------------------------------------------------------------- -/

/-- `proto.KeyMeta`: a request-carried key reference. -/
structure KeyMeta where
  identifier : String
deriving DecidableEq, Repr

/-- `proto.KeyMetas`: the response of `GetBlobAvailableSigningKeys`. -/
structure KeyMetas where
  keys : List KeyMeta
deriving DecidableEq, Repr

/-- `proto.PublicKey`: the response of `GetBlobSigningKey`. -/
structure PublicKey where
  key : String
deriving DecidableEq, Repr

/-- `proto.Signature`: the response of `PostSignBlob`. -/
structure Signature where
  signature : String
deriving DecidableEq, Repr

/-- `proto.BlobSigningRequest`.  `hashAlgorithm` stands for the text
`request.HashAlgorithm.String()` of the proto enum, which is the form in
which `blob.go` consumes it. -/
structure BlobSigningRequest where
  keyMeta : Option KeyMeta
  digest : String
  hashAlgorithm : String
deriving DecidableEq, Repr

/-- The protobuf-generated nil-safe getter `request.GetDigest()`: returns
the zero value `""` when the request pointer is nil.  (By contrast,
`request.HashAlgorithm` is a plain field access and panics on a nil
pointer; see `PostSignBlob` below.) -/
def GetDigest : Option BlobSigningRequest → String
  | none => ""
  | some r => r.digest

/- ---------------------------------------------------------------------- -/
/- crypto.SignerOpts, gRPC status, log records                             -/
/- ---------------------------------------------------------------------- -/

/-- The four `crypto.Hash` descriptors that `getSignerOpts` can return. -/
inductive CryptoHash where
  | SHA224
  | SHA256
  | SHA384
  | SHA512
deriving DecidableEq, Repr

/-- `getSignerOpts` from `blob.go`: Go's `switch hashAlgo` is a sequence
of equality tests with a `default` arm returning `crypto.SHA512`. -/
def getSignerOpts (hashAlgo : String) : CryptoHash :=
  if hashAlgo = "SHA224" then .SHA224
  else if hashAlgo = "SHA256" then .SHA256
  else if hashAlgo = "SHA384" then .SHA384
  else if hashAlgo = "SHA512" then .SHA512
  else .SHA512

/-- The gRPC status codes `blob.go` produces (`codes.InvalidArgument`,
`codes.Internal`). -/
inductive Code where
  | InvalidArgument
  | Internal
deriving DecidableEq, Repr

/-- A non-OK gRPC status as built by `status.Errorf` / `status.Error`. -/
structure GrpcStatus where
  code : Code
  message : String
deriving DecidableEq, Repr

/-- Go's `fmt` verb `%q` on a string, as used in the error messages of
`blob.go` (faithful for strings without characters that `%q` escapes;
key identifiers and the endpoint constant are such strings). -/
def goQuote (s : String) : String := "\"" ++ s ++ "\""

/-- Go's `string(b)` conversion of a byte slice, used for the fetched
public key (`proto.PublicKey{Key: string(key)}`). -/
def goStringOfBytes (bs : List Nat) : String :=
  String.mk (bs.map (fun b => Char.ofNat (b % 256)))

/-- One structured record written by the deferred `log.Printf` of an
operation in `blob.go`: method name, status code, elapsed time, the `err`
local (`none` models a nil error), and — for `PostSignBlob` only — the
raw digest text and hash-algorithm name (`digest`/`hash` are `none` for
the two operations whose format string has no such fields). -/
structure LogRecord where
  method : String
  digest : Option String
  hash : Option String
  st : Nat
  et : Nat
  err : Option String
deriving DecidableEq, Repr

/-- Placeholder record used only as the default of `List.headD`. -/
def emptyLogRecord : LogRecord := ⟨"", none, none, 0, 0, none⟩

/- ---------------------------------------------------------------------- -/
/- The signing service and its external signer                             -/
/- ---------------------------------------------------------------------- -/

/-- Result of one call into the external signer: bytes, a Go error, or a
panic escaping the signer (the "unexpected fault" class of the spec). -/
inductive SignerResult where
  | ok (bytes : List Nat)
  | err (msg : String)
  | panics (msg : String)
deriving DecidableEq, Repr

/-- A record of one invocation of the external signer, used to state that
the signer is (or is not) reached on a given path. -/
inductive SignerCall where
  | sign (digest : List Nat) (opts : CryptoHash) (identifier : String)
  | getPublicKey (identifier : String)
deriving DecidableEq, Repr

/-- `SigningService`: `keyUsages ep` is the Go map `s.KeyUsages[ep]` (an
absent endpoint is the nil map `[]`); `signImpl` and
`getBlobSigningPublicKeyImpl` are the external signer's
`Sign(digest, opts, identifier)` and `GetBlobSigningPublicKey(identifier)`. -/
structure SigningService where
  keyUsages : String → List (String × Bool)
  signImpl : List Nat → CryptoHash → String → SignerResult
  getBlobSigningPublicKeyImpl : String → SignerResult

/- ---------------------------------------------------------------------- -/
/- Function bodies: the code between the defers and the return             -/
/- ---------------------------------------------------------------------- -/

/-- How a Go function body leaves: a normal `return` carrying the
`(value, error)` pair, or a panic. -/
inductive BodyExit (α : Type) where
  | ret (result : Except GrpcStatus α)
  | panicked (msg : String)

/-- Exit of a body together with the locals the deferred `log.Printf`
reads (`statusCode`, `err`) at the moment the body exits, and the signer
invocations the body performed. -/
structure BodyOut (α : Type) where
  exit : BodyExit α
  statusCode : Nat
  errVar : Option String
  signerCalls : List SignerCall

/-- Go's panic value text for dereferencing a nil pointer. -/
def nilPanicMsg : String :=
  "runtime error: invalid memory address or nil pointer dereference"

/-- Body of `GetBlobAvailableSigningKeys`: ranges over the map
`s.KeyUsages[config.BlobEndpoint]` and wraps every key (whatever its
boolean value) in a `KeyMeta`.  Go's map iteration order is unspecified;
the model uses the association-list order, and the claims about this
operation are stated order-independently.  Initial `statusCode` is
`http.StatusOK` (200); the body cannot fail or panic. -/
def GetBlobAvailableSigningKeysBody (s : SigningService) : BodyOut KeyMetas :=
  { exit := .ret (.ok ⟨(s.keyUsages blobEndpoint).map (fun p => ⟨p.1⟩)⟩)
    statusCode := 200
    errVar := none
    signerCalls := [] }

/-- Body of `GetBlobSigningKey`: nil `keyMeta` check, authorization
lookup, then the signer's public-key fetch.  Initial `statusCode` is 200;
error paths set 400/500 and the `err` local exactly as the source does.
A panic escaping the signer leaves `statusCode`/`err` at the values they
had before the call (200 / nil), since the assignment never happens. -/
def GetBlobSigningKeyBody (s : SigningService) (keyMeta : Option KeyMeta) :
    BodyOut PublicKey :=
  match keyMeta with
  | none =>
    let e := "keyMeta is empty for " ++ goQuote blobEndpoint
    { exit := .ret (.error ⟨.InvalidArgument, "Bad request: " ++ e⟩)
      statusCode := 400, errVar := some e, signerCalls := [] }
  | some km =>
    if lookupBool (s.keyUsages blobEndpoint) km.identifier then
      match s.getBlobSigningPublicKeyImpl km.identifier with
      | .ok key =>
        { exit := .ret (.ok ⟨goStringOfBytes key⟩)
          statusCode := 200, errVar := none
          signerCalls := [.getPublicKey km.identifier] }
      | .err e =>
        { exit := .ret (.error ⟨.Internal, "Internal server error"⟩)
          statusCode := 500, errVar := some e
          signerCalls := [.getPublicKey km.identifier] }
      | .panics m =>
        { exit := .panicked m
          statusCode := 200, errVar := none
          signerCalls := [.getPublicKey km.identifier] }
    else
      let e := "cannot use key " ++ goQuote km.identifier ++ " for " ++
               goQuote blobEndpoint
      { exit := .ret (.error ⟨.InvalidArgument, "Bad request: " ++ e⟩)
        statusCode := 400, errVar := some e, signerCalls := [] }

/-- Body of `PostSignBlob`.  A nil request panics at the plain field
access `request.KeyMeta` before anything else happens (initial
`statusCode` is `http.StatusCreated`, 201).  Otherwise: nil-`KeyMeta`
check, authorization lookup, base64 decode of the digest, hash-algorithm
resolution, and the signer call, each setting `statusCode`/`err` exactly
as the source does. -/
def PostSignBlobBody (s : SigningService) (request : Option BlobSigningRequest) :
    BodyOut Signature :=
  match request with
  | none =>
    { exit := .panicked nilPanicMsg
      statusCode := 201, errVar := none, signerCalls := [] }
  | some req =>
    match req.keyMeta with
    | none =>
      let e := "request.keyMeta is empty for " ++ goQuote blobEndpoint
      { exit := .ret (.error ⟨.InvalidArgument, "Bad request: " ++ e⟩)
        statusCode := 400, errVar := some e, signerCalls := [] }
    | some km =>
      if lookupBool (s.keyUsages blobEndpoint) km.identifier then
        match DecodeString req.digest with
        | .error e =>
          { exit := .ret (.error ⟨.InvalidArgument, "Bad request: " ++ e⟩)
            statusCode := 400, errVar := some e, signerCalls := [] }
        | .ok digest =>
          let signerOpts := getSignerOpts req.hashAlgorithm
          match s.signImpl digest signerOpts km.identifier with
          | .ok signature =>
            { exit := .ret (.ok ⟨EncodeToString signature⟩)
              statusCode := 201, errVar := none
              signerCalls := [.sign digest signerOpts km.identifier] }
          | .err e =>
            { exit := .ret (.error ⟨.Internal, "Internal server error"⟩)
              statusCode := 500, errVar := some e
              signerCalls := [.sign digest signerOpts km.identifier] }
          | .panics m =>
            { exit := .panicked m
              statusCode := 201, errVar := none
              signerCalls := [.sign digest signerOpts km.identifier] }
      else
        let e := "cannot use key " ++ goQuote km.identifier ++ " for " ++
                 goQuote blobEndpoint
        { exit := .ret (.error ⟨.InvalidArgument, "Bad request: " ++ e⟩)
          statusCode := 400, errVar := some e, signerCalls := [] }

/- ---------------------------------------------------------------------- -/
/- The call boundary: recovery defer, then the logging defer               -/
/- ---------------------------------------------------------------------- -/

/-- Caller-visible outcome of one call: a value, a gRPC error, or a panic
escaping the call boundary (which would terminate the process). -/
inductive CallOutcome (α : Type) where
  | ok (value : α)
  | err (status : GrpcStatus)
  | fault (msg : String)

/-- Modelled from the spec: `recoverIfPanicked` (package `api`, not under
`src/`) is the deferred recovery wrapper.  Per the spec it "converts any
unexpected runtime fault arising during the wrapped call into a
SignerError-equivalent internal failure instead of terminating the
process, logging the fault detail", and the one structured record then
carries the resulting status class; so a panicked exit becomes the
generic internal-failure result with `statusCode` 500 and the fault text
as the logged error.  A normal exit passes through unchanged. -/
def recoverBody (b : BodyOut α) : BodyOut α :=
  match b.exit with
  | .ret _ => b
  | .panicked m =>
    { b with exit := .ret (.error ⟨.Internal, "Internal server error"⟩)
             statusCode := 500, errVar := some m }

/-- Modelled from the spec: the fault-detail log line written by
`recoverIfPanicked` when it recovers a panic (distinct from the one
structured per-call record of the logging defer). -/
def panicLog (methodName : String) (b : BodyOut α) : List String :=
  match b.exit with
  | .panicked m => [methodName ++ ": recovered from panic: " ++ m]
  | .ret _ => []

/-- Mapping a (recovered) body exit to the caller-visible outcome. -/
def outcomeOf : BodyExit α → CallOutcome α
  | .ret (.ok v) => .ok v
  | .ret (.error st) => .err st
  | .panicked m => .fault m

/-- Everything observable about one call: the caller-visible outcome, the
structured records of the logging defer, the fault-detail lines of the
recovery defer, and the signer invocations. -/
structure Trace (α : Type) where
  outcome : CallOutcome α
  logs : List LogRecord
  faultLogs : List String
  signerCalls : List SignerCall

/-- `GetBlobAvailableSigningKeys` with its two defers.  The logging defer
(registered first, hence run last) reads only locals and always emits its
one record. -/
def GetBlobAvailableSigningKeys (s : SigningService) (et : Nat) : Trace KeyMetas :=
  let b0 := GetBlobAvailableSigningKeysBody s
  let b := recoverBody b0
  { outcome := outcomeOf b.exit
    logs := [{ method := "GetBlobAvailableSigningKeys", digest := none, hash := none,
               st := b.statusCode, et := et, err := b.errVar }]
    faultLogs := panicLog "GetBlobAvailableSigningKeys" b0
    signerCalls := b.signerCalls }

/-- `GetBlobSigningKey` with its two defers.  Its log format string reads
no request field, so the logging defer is safe even for nil `keyMeta` and
always emits its one record. -/
def GetBlobSigningKey (s : SigningService) (et : Nat) (keyMeta : Option KeyMeta) :
    Trace PublicKey :=
  let b0 := GetBlobSigningKeyBody s keyMeta
  let b := recoverBody b0
  { outcome := outcomeOf b.exit
    logs := [{ method := "GetBlobSigningKey", digest := none, hash := none,
               st := b.statusCode, et := et, err := b.errVar }]
    faultLogs := panicLog "GetBlobSigningKey" b0
    signerCalls := b.signerCalls }

/-- `PostSignBlob` with its two defers.  The deferred `log.Printf`
evaluates `request.GetDigest()` (nil-safe) and `request.HashAlgorithm`
(a plain field access): on a nil request the latter panics inside the
logging defer, after the recovery defer (registered later, hence run
earlier) has already completed, so no structured record is emitted and
the panic escapes the call boundary. -/
def PostSignBlob (s : SigningService) (et : Nat)
    (request : Option BlobSigningRequest) : Trace Signature :=
  let b0 := PostSignBlobBody s request
  let b := recoverBody b0
  match request with
  | none =>
    { outcome := .fault nilPanicMsg
      logs := []
      faultLogs := panicLog "PostSignBlob" b0
      signerCalls := b.signerCalls }
  | some req =>
    { outcome := outcomeOf b.exit
      logs := [{ method := "PostSignBlob", digest := some (GetDigest request),
                 hash := some req.hashAlgorithm,
                 st := b.statusCode, et := et, err := b.errVar }]
      faultLogs := panicLog "PostSignBlob" b0
      signerCalls := b.signerCalls }

/- ---------------------------------------------------------------------- -/
/- Concrete fixtures used by witnesses and counterexamples                 -/
/- ---------------------------------------------------------------------- -/

/-- Fixture: `KeyUsages["blob"] = {"key1"}`; the signer returns the bytes
`[0xAA, 0xBB]` from `Sign` and the byte of `'k'` as public key. -/
def sAuth : SigningService :=
  { keyUsages := fun ep => if ep = blobEndpoint then [("key1", true)] else []
    signImpl := fun _ _ _ => .ok [170, 187]
    getBlobSigningPublicKeyImpl := fun _ => .ok [107] }

/-- Fixture: same policy as `sAuth`, but every signer call fails with a
backend-specific fault detail. -/
def sSignErr : SigningService :=
  { keyUsages := fun ep => if ep = blobEndpoint then [("key1", true)] else []
    signImpl := fun _ _ _ => .err "hsm: slot 3 offline"
    getBlobSigningPublicKeyImpl := fun _ => .err "hsm: slot 3 offline" }

/-- Fixture: same policy as `sAuth`, but every signer call panics. -/
def sPanicky : SigningService :=
  { keyUsages := fun ep => if ep = blobEndpoint then [("key1", true)] else []
    signImpl := fun _ _ _ => .panics "boom"
    getBlobSigningPublicKeyImpl := fun _ => .panics "boom" }

/-- Fixture: the empty identifier is present (and true) in the blob map,
so the authorization lookup accepts it. -/
def sEmptyIdAuthorized : SigningService :=
  { keyUsages := fun ep => if ep = blobEndpoint then [("", true)] else []
    signImpl := fun _ _ _ => .ok [170, 187]
    getBlobSigningPublicKeyImpl := fun _ => .ok [107] }

/-- Fixture request: authorized key, digest = base64 of "hello". -/
def reqKey1 : BlobSigningRequest := ⟨some ⟨"key1"⟩, "aGVsbG8=", "SHA256"⟩

/-- Fixture request: unauthorized key "key2" (scenario B of the spec). -/
def reqKey2 : BlobSigningRequest := ⟨some ⟨"key2"⟩, "aGVsbG8=", "SHA256"⟩

/-- Fixture request: authorized key but a digest that is not base64. -/
def reqBadDigest : BlobSigningRequest := ⟨some ⟨"key1"⟩, "***", "SHA256"⟩

/- ---------------------------------------------------------------------- -/
/- Specification predicates for the logging claims                         -/
/- ---------------------------------------------------------------------- -/

/-- The fields claim C7 requires of the one structured record of a call
with outcome `o`: the method name, the elapsed time, the digest/hash
fields (for `PostSignBlob`), and a status/error pair matching the
resulting status class (`okCode` on success and `err = none`; 400 for
invalid-argument and 500 for internal failures, with a nonempty error
text).  An outcome that escapes as a fault is outside this predicate. -/
def logRecordMatches (methodName : String) (okCode et : Nat)
    (dg hs : Option String) (o : CallOutcome α) (r : LogRecord) : Prop :=
  r.method = methodName ∧ r.et = et ∧ r.digest = dg ∧ r.hash = hs ∧
  (match o with
   | .ok _ => r.st = okCode ∧ r.err = none
   | .err st =>
     (match st.code with
      | .InvalidArgument => r.st = 400
      | .Internal => r.st = 500) ∧ r.err.isSome = true
   | .fault _ => False)

/-- "Exactly one structured record, with the C7 fields": the trace's log
list has length one and its record satisfies `logRecordMatches`. -/
def emitsOneRecord (t : Trace α) (methodName : String) (okCode et : Nat)
    (dg hs : Option String) : Prop :=
  t.logs.length = 1 ∧
  logRecordMatches methodName okCode et dg hs t.outcome (t.logs.headD emptyLogRecord)

/-- Invariant tying a body's locals to its exit, as needed for the log
record: on a successful return the status is still the initial `okCode`
and `err` is nil; on an error return the status is 400/500 according to
the gRPC code and `err` is set; a panicked exit is unconstrained (the
recovery wrapper rewrites it). -/
def bodyLogConsistent (okCode : Nat) (b : BodyOut α) : Prop :=
  match b.exit with
  | .ret (.ok _) => b.statusCode = okCode ∧ b.errVar = none
  | .ret (.error st) =>
    (match st.code with
     | .InvalidArgument => b.statusCode = 400
     | .Internal => b.statusCode = 500) ∧ b.errVar.isSome = true
  | .panicked _ => True

/- ---------------------------------------------------------------------- -/
/- Helper lemmas                                                           -/
/- ---------------------------------------------------------------------- -/

/-- Membership characterisation of the Go map lookup: when every stored
value is `true` (as the configuration loader guarantees for `KeyUsages`),
the lookup returns `true` exactly for the keys of the map. -/
theorem lookupBool_true_iff (m : List (String × Bool)) (k : String)
    (hm : ∀ p ∈ m, p.2 = true) :
    lookupBool m k = true ↔ k ∈ m.map Prod.fst := by
  induction m with
  | nil => simp [lookupBool]
  | cons p l ih =>
    rcases p with ⟨a, b⟩
    have hb : b = true := hm (a, b) (by simp)
    subst hb
    by_cases hka : a = k
    · subst hka
      simp [lookupBool, List.lookup]
    · have hka' : ¬ k = a := fun h => hka h.symm
      have hbeq : (k == a) = false := by simp [hka']
      have ih' := ih (fun q hq => hm q (List.mem_cons_of_mem _ hq))
      simpa [lookupBool, List.lookup, hbeq, hka', hka] using ih' 

/-- The record built by a logging defer from a recovered body satisfies
the C7 field predicate whenever the body kept its locals consistent. -/
theorem recordMatches_of_consistent (methodName : String) (okCode et : Nat)
    (dg hs : Option String) (b0 : BodyOut α) (hc : bodyLogConsistent okCode b0) :
    logRecordMatches methodName okCode et dg hs (outcomeOf (recoverBody b0).exit)
      { method := methodName, digest := dg, hash := hs,
        st := (recoverBody b0).statusCode, et := et, err := (recoverBody b0).errVar } := by
  rcases b0 with ⟨exit, st, ev, calls⟩
  match exit with
  | .ret (.ok v) =>
    simp only [bodyLogConsistent] at hc
    simp [logRecordMatches, recoverBody, outcomeOf, hc.1, hc.2]
  | .ret (.error gs) =>
    rcases gs with ⟨code, msg⟩
    cases code with
    | InvalidArgument =>
      simp only [bodyLogConsistent] at hc
      simp [logRecordMatches, recoverBody, outcomeOf, hc.1, hc.2]
    | Internal =>
      simp only [bodyLogConsistent] at hc
      simp [logRecordMatches, recoverBody, outcomeOf, hc.1, hc.2]
  | .panicked m =>
    simp [logRecordMatches, recoverBody, outcomeOf]

/-- The body of `GetBlobAvailableSigningKeys` keeps its locals
consistent with its exit. -/
theorem getBlobAvailableSigningKeysBody_consistent (s : SigningService) :
    bodyLogConsistent 200 (GetBlobAvailableSigningKeysBody s) := by
  simp [bodyLogConsistent, GetBlobAvailableSigningKeysBody]

/-- The body of `GetBlobSigningKey` keeps its locals consistent with its
exit on every path. -/
theorem getBlobSigningKeyBody_consistent (s : SigningService)
    (keyMeta : Option KeyMeta) :
    bodyLogConsistent 200 (GetBlobSigningKeyBody s keyMeta) := by
  cases keyMeta with
  | none => simp [bodyLogConsistent, GetBlobSigningKeyBody]
  | some km =>
    by_cases h : lookupBool (s.keyUsages blobEndpoint) km.identifier
    · cases hk : s.getBlobSigningPublicKeyImpl km.identifier <;>
        simp [bodyLogConsistent, GetBlobSigningKeyBody, h, hk]
    · simp [bodyLogConsistent, GetBlobSigningKeyBody, h]

/-- The body of `PostSignBlob` keeps its locals consistent with its exit
on every path. -/
theorem postSignBlobBody_consistent (s : SigningService)
    (request : Option BlobSigningRequest) :
    bodyLogConsistent 201 (PostSignBlobBody s request) := by
  cases request with
  | none => simp [bodyLogConsistent, PostSignBlobBody]
  | some req =>
    cases hkm : req.keyMeta with
    | none => simp [bodyLogConsistent, PostSignBlobBody, hkm]
    | some km =>
      by_cases h : lookupBool (s.keyUsages blobEndpoint) km.identifier
      · cases hd : DecodeString req.digest with
        | error e => simp [bodyLogConsistent, PostSignBlobBody, hkm, h, hd]
        | ok d =>
          cases hs : s.signImpl d (getSignerOpts req.hashAlgorithm) km.identifier <;>
            simp [bodyLogConsistent, PostSignBlobBody, hkm, h, hd, hs]
      · simp [bodyLogConsistent, PostSignBlobBody, hkm, h]

/- ---------------------------------------------------------------------- -/
/- Claims                                                                  -/
/- ---------------------------------------------------------------------- -/

/-- Claim C1: for every identifier not authorized for the blob endpoint
(not in `KeyUsages["blob"]`), both `GetBlobSigningKey` and `PostSignBlob`
return an invalid-argument error whose message reads
`Bad request: cannot use key "<identifier>" for "blob"` (so it references
the offending identifier), and the external signer is never invoked on
that call. -/
theorem C1_unauthorized_key_rejected (s : SigningService) (et : Nat) (km : KeyMeta)
    (h : lookupBool (s.keyUsages blobEndpoint) km.identifier = false) :
    ((GetBlobSigningKey s et (some km)).outcome =
        .err ⟨.InvalidArgument, "Bad request: " ++ ("cannot use key " ++
          goQuote km.identifier ++ " for " ++ goQuote blobEndpoint)⟩ ∧
      (GetBlobSigningKey s et (some km)).signerCalls = []) ∧
    (∀ req : BlobSigningRequest, req.keyMeta = some km →
      (PostSignBlob s et (some req)).outcome =
        .err ⟨.InvalidArgument, "Bad request: " ++ ("cannot use key " ++
          goQuote km.identifier ++ " for " ++ goQuote blobEndpoint)⟩ ∧
      (PostSignBlob s et (some req)).signerCalls = []) := by
  constructor
  · constructor <;>
      simp [GetBlobSigningKey, GetBlobSigningKeyBody, recoverBody, outcomeOf, h]
  · intro req hreq
    constructor <;>
      simp [PostSignBlob, PostSignBlobBody, recoverBody, outcomeOf, hreq, h]

/-- Witness for C1 at scenario B of the spec: `KeyUsages["blob"] =
{"key1"}` and a `PostSignBlob` request for "key2". -/
theorem C1_unauthorized_key_rejected_witness :
    (PostSignBlob sAuth 1 (some reqKey2)).outcome =
      .err ⟨.InvalidArgument, "Bad request: " ++ ("cannot use key " ++
        goQuote "key2" ++ " for " ++ goQuote blobEndpoint)⟩ ∧
    (PostSignBlob sAuth 1 (some reqKey2)).signerCalls = [] :=
  (C1_unauthorized_key_rejected sAuth 1 ⟨"key2"⟩ rfl).2 reqKey2 rfl

/-- Claim C3: hash-algorithm resolution is a total function; each of the
four recognized names resolves to its own descriptor and every other
input — the empty string included — resolves to the SHA512 descriptor. -/
theorem C3_getSignerOpts_total :
    getSignerOpts "SHA224" = .SHA224 ∧ getSignerOpts "SHA256" = .SHA256 ∧
    getSignerOpts "SHA384" = .SHA384 ∧ getSignerOpts "SHA512" = .SHA512 ∧
    getSignerOpts "" = .SHA512 ∧
    (∀ h, h ≠ "SHA224" → h ≠ "SHA256" → h ≠ "SHA384" → h ≠ "SHA512" →
      getSignerOpts h = .SHA512) := by
  refine ⟨rfl, rfl, rfl, rfl, rfl, ?_⟩
  intro h h1 h2 h3 h4
  simp [getSignerOpts, h1, h2, h3, h4]

/-- Witness for C3: an unrecognized name resolves to SHA512. -/
theorem C3_getSignerOpts_total_witness : getSignerOpts "MD5" = .SHA512 :=
  C3_getSignerOpts_total.2.2.2.2.2 "MD5"
    (by decide) (by decide) (by decide) (by decide)

/-- Claim C5: a `PostSignBlob` request that passes validation and
authorization but whose digest is not valid standard base64 yields an
invalid-argument error and the external signer is never invoked. -/
theorem C5_bad_digest_rejected_before_signer (s : SigningService) (et : Nat)
    (req : BlobSigningRequest) (km : KeyMeta) (e : String)
    (hkm : req.keyMeta = some km)
    (hauth : lookupBool (s.keyUsages blobEndpoint) km.identifier = true)
    (hdec : DecodeString req.digest = .error e) :
    (PostSignBlob s et (some req)).outcome =
      .err ⟨.InvalidArgument, "Bad request: " ++ e⟩ ∧
    (PostSignBlob s et (some req)).signerCalls = [] := by
  constructor <;>
    simp [PostSignBlob, PostSignBlobBody, recoverBody, outcomeOf, hkm, hauth, hdec]

/-- Witness for C5: the authorized key with the non-base64 digest
`"***"`. -/
theorem C5_bad_digest_rejected_before_signer_witness :
    (PostSignBlob sAuth 1 (some reqBadDigest)).outcome =
      .err ⟨.InvalidArgument, "Bad request: " ++ base64CorruptMsg⟩ ∧
    (PostSignBlob sAuth 1 (some reqBadDigest)).signerCalls = [] :=
  C5_bad_digest_rejected_before_signer sAuth 1 reqBadDigest ⟨"key1"⟩
    base64CorruptMsg rfl rfl rfl

/-- Claim C9: a valid, authorized `PostSignBlob` request with a decodable
digest invokes the signer exactly once, with the decoded digest bytes,
the resolved algorithm descriptor and the request's identifier, and on
signer success returns the standard base64 encoding of the signer's
bytes. -/
theorem C9_sign_happy_path (s : SigningService) (et : Nat)
    (req : BlobSigningRequest) (km : KeyMeta) (d sig : List Nat)
    (hkm : req.keyMeta = some km)
    (hauth : lookupBool (s.keyUsages blobEndpoint) km.identifier = true)
    (hdec : DecodeString req.digest = .ok d)
    (hsig : s.signImpl d (getSignerOpts req.hashAlgorithm) km.identifier = .ok sig) :
    (PostSignBlob s et (some req)).signerCalls =
      [SignerCall.sign d (getSignerOpts req.hashAlgorithm) km.identifier] ∧
    (PostSignBlob s et (some req)).outcome = .ok ⟨EncodeToString sig⟩ := by
  constructor <;>
    simp [PostSignBlob, PostSignBlobBody, recoverBody, outcomeOf,
          hkm, hauth, hdec, hsig]

/-- Witness for C9 at scenario C of the spec: digest `"aGVsbG8="`
(base64 of "hello"), hash `"SHA256"`, signer output `[0xAA, 0xBB]`,
response signature `"qrs="`. -/
theorem C9_sign_happy_path_witness :
    (PostSignBlob sAuth 1 (some reqKey1)).signerCalls =
      [SignerCall.sign [104, 101, 108, 108, 111] CryptoHash.SHA256 "key1"] ∧
    (PostSignBlob sAuth 1 (some reqKey1)).outcome = .ok ⟨"qrs="⟩ :=
  C9_sign_happy_path sAuth 1 reqKey1 ⟨"key1"⟩ [104, 101, 108, 108, 111]
    [170, 187] rfl rfl rfl rfl

/-- Claim C10: calling `PostSignBlob` with a nil request forfeits the
logging and containment guarantees: the body's panic at `request.KeyMeta`
is recovered by the recovery defer, but the logging defer then
dereferences the nil request at `request.HashAlgorithm` — after the
recovery defer has already completed — so the call emits no structured
record and escapes as an uncontained fault rather than an
internal-failure result. -/
theorem C10_nil_request_uncontained_fault (s : SigningService) (et : Nat) :
    (PostSignBlob s et none).outcome = .fault nilPanicMsg ∧
    (PostSignBlob s et none).logs = [] ∧
    (PostSignBlob s et none).faultLogs =
      ["PostSignBlob: recovered from panic: " ++ nilPanicMsg] :=
  ⟨rfl, rfl, rfl⟩

/-- Claim C2: an unexpected fault (panic) during the wrapped body of any
of the three operations is contained at the call boundary and surfaced
to the caller as the generic internal failure instead of terminating the
process — for `PostSignBlob` under the non-nil-request precondition that
C10 singles out.  `GetBlobAvailableSigningKeys`'s body has no fault
source, so its outcome is never a fault.  (`recoverIfPanicked` lives in
the `api` package outside `src/` and is modelled from the spec; see
`recoverBody`.) -/
theorem C2_panic_contained (s : SigningService) (et : Nat) :
    (∀ keyMeta m, (GetBlobSigningKeyBody s keyMeta).exit = .panicked m →
      (GetBlobSigningKey s et keyMeta).outcome =
        .err ⟨.Internal, "Internal server error"⟩) ∧
    (∀ req m, (PostSignBlobBody s (some req)).exit = .panicked m →
      (PostSignBlob s et (some req)).outcome =
        .err ⟨.Internal, "Internal server error"⟩) ∧
    (∀ m, (GetBlobAvailableSigningKeys s et).outcome ≠ .fault m) := by
  refine ⟨?_, ?_, ?_⟩
  · intro keyMeta m hm
    simp [GetBlobSigningKey, recoverBody, outcomeOf, hm]
  · intro req m hm
    simp [PostSignBlob, recoverBody, outcomeOf, hm]
  · intro m
    simp [GetBlobAvailableSigningKeys, GetBlobAvailableSigningKeysBody,
          recoverBody, outcomeOf]

/-- Witness for C2: a signer that panics during `PostSignBlob`'s body is
surfaced as the generic internal failure. -/
theorem C2_panic_contained_witness :
    (PostSignBlob sPanicky 3 (some reqKey1)).outcome =
      .err ⟨.Internal, "Internal server error"⟩ :=
  (C2_panic_contained sPanicky 3).2.1 reqKey1 "boom" rfl

/-- Claim C4 (counterexample): the code has no empty-identifier
validation.  With `KeyUsages["blob"]` containing the empty identifier, a
`GetBlobSigningKey` call whose keyMeta carries the empty identifier is
accepted by the authorization lookup and succeeds, instead of failing
with the ValidationError the claim requires for an empty identifier. -/
theorem C4_empty_identifier_not_validated :
    (GetBlobSigningKey sEmptyIdAuthorized 1 (some ⟨""⟩)).outcome = .ok ⟨"k"⟩ :=
  rfl

/-- Claim C4 (amended): a missing `keyMeta` is rejected by both
operations with an invalid-argument error whose message references
"keyMeta is empty", and the signer is not invoked; an empty identifier,
however, is not separately validated — it flows to the authorization
check and, when unauthorized, is rejected with the "cannot use key"
message of that check. -/
theorem C4_missing_keyMeta_rejected (s : SigningService) (et : Nat) :
    ((GetBlobSigningKey s et none).outcome =
      .err ⟨.InvalidArgument, "Bad request: " ++
        ("keyMeta is empty for " ++ goQuote blobEndpoint)⟩ ∧
     (GetBlobSigningKey s et none).signerCalls = []) ∧
    (∀ req : BlobSigningRequest, req.keyMeta = none →
      (PostSignBlob s et (some req)).outcome =
        .err ⟨.InvalidArgument, "Bad request: " ++
          ("request.keyMeta is empty for " ++ goQuote blobEndpoint)⟩ ∧
      (PostSignBlob s et (some req)).signerCalls = []) ∧
    (lookupBool (s.keyUsages blobEndpoint) "" = false →
      (GetBlobSigningKey s et (some ⟨""⟩)).outcome =
        .err ⟨.InvalidArgument, "Bad request: " ++ ("cannot use key " ++
          goQuote "" ++ " for " ++ goQuote blobEndpoint)⟩) := by
  refine ⟨?_, ?_, ?_⟩
  · constructor <;>
      simp [GetBlobSigningKey, GetBlobSigningKeyBody, recoverBody, outcomeOf]
  · intro req hreq
    constructor <;>
      simp [PostSignBlob, PostSignBlobBody, recoverBody, outcomeOf, hreq]
  · intro h
    simp [GetBlobSigningKey, GetBlobSigningKeyBody, recoverBody, outcomeOf, h]

/-- Witness for C4 (amended), at scenario A of the spec: a nil keyMeta is
rejected with the "keyMeta is empty" message, and an empty identifier
under `KeyUsages["blob"] = {"key1"}` falls to the authorization error. -/
theorem C4_missing_keyMeta_rejected_witness :
    (GetBlobSigningKey sAuth 1 none).outcome =
      .err ⟨.InvalidArgument, "Bad request: " ++
        ("keyMeta is empty for " ++ goQuote blobEndpoint)⟩ ∧
    (GetBlobSigningKey sAuth 1 (some ⟨""⟩)).outcome =
      .err ⟨.InvalidArgument, "Bad request: " ++ ("cannot use key " ++
        goQuote "" ++ " for " ++ goQuote blobEndpoint)⟩ :=
  ⟨(C4_missing_keyMeta_rejected sAuth 1).1.1,
   (C4_missing_keyMeta_rejected sAuth 1).2.2 rfl⟩

/-- Claim C6: when the external signer fails — the public-key fetch in
`GetBlobSigningKey` or the signing call in `PostSignBlob` — the caller
sees an internal-status error whose message is the fixed string
`"Internal server error"`, independent of the backend fault detail (so
any two fault details produce identical caller-visible results), while
the real fault text is what the per-call log record carries. -/
theorem C6_signer_failure_scrubbed (s : SigningService) (et : Nat) :
    (∀ km e, lookupBool (s.keyUsages blobEndpoint) km.identifier = true →
      s.getBlobSigningPublicKeyImpl km.identifier = .err e →
      (GetBlobSigningKey s et (some km)).outcome =
        .err ⟨.Internal, "Internal server error"⟩ ∧
      (GetBlobSigningKey s et (some km)).logs =
        [{ method := "GetBlobSigningKey", digest := none, hash := none,
           st := 500, et := et, err := some e }]) ∧
    (∀ req km d e, req.keyMeta = some km →
      lookupBool (s.keyUsages blobEndpoint) km.identifier = true →
      DecodeString req.digest = .ok d →
      s.signImpl d (getSignerOpts req.hashAlgorithm) km.identifier = .err e →
      (PostSignBlob s et (some req)).outcome =
        .err ⟨.Internal, "Internal server error"⟩ ∧
      (PostSignBlob s et (some req)).logs =
        [{ method := "PostSignBlob", digest := some req.digest,
           hash := some req.hashAlgorithm, st := 500, et := et,
           err := some e }]) := by
  constructor
  · intro km e hauth himpl
    constructor <;>
      simp [GetBlobSigningKey, GetBlobSigningKeyBody, recoverBody, outcomeOf,
            hauth, himpl]
  · intro req km d e hkm hauth hdec himpl
    constructor <;>
      simp [PostSignBlob, PostSignBlobBody, recoverBody, outcomeOf, GetDigest,
            hkm, hauth, hdec, himpl]

/-- Witness for C6 at scenario D of the spec: a backend fault on an
otherwise valid, authorized signing request. -/
theorem C6_signer_failure_scrubbed_witness :
    (PostSignBlob sSignErr 2 (some reqKey1)).outcome =
      .err ⟨.Internal, "Internal server error"⟩ ∧
    (PostSignBlob sSignErr 2 (some reqKey1)).logs =
      [{ method := "PostSignBlob", digest := some reqKey1.digest,
         hash := some reqKey1.hashAlgorithm, st := 500, et := 2,
         err := some "hsm: slot 3 offline" }] :=
  (C6_signer_failure_scrubbed sSignErr 2).2 reqKey1 ⟨"key1"⟩
    [104, 101, 108, 108, 111] "hsm: slot 3 offline" rfl rfl rfl rfl

/-- Claim C7: each of the three operations emits exactly one structured
log record per call, on every exit path that returns to the caller
(normal return, mapped error, contained fault), and the record carries
the method name, a status matching the resulting status class, the
elapsed duration, and the error text (absent on success); `PostSignBlob`'s
record additionally carries the caller-supplied digest text and
hash-algorithm name.  (The only exit path outside these classes is the
uncontained nil-request fault of C10, on which no record is emitted.) -/
theorem C7_exactly_one_log_record (s : SigningService) (et : Nat) :
    emitsOneRecord (GetBlobAvailableSigningKeys s et)
      "GetBlobAvailableSigningKeys" 200 et none none ∧
    (∀ keyMeta, emitsOneRecord (GetBlobSigningKey s et keyMeta)
      "GetBlobSigningKey" 200 et none none) ∧
    (∀ req, emitsOneRecord (PostSignBlob s et (some req))
      "PostSignBlob" 201 et (some req.digest) (some req.hashAlgorithm)) := by
  refine ⟨⟨rfl, ?_⟩, fun keyMeta => ⟨rfl, ?_⟩, fun req => ⟨rfl, ?_⟩⟩
  · exact recordMatches_of_consistent _ _ _ _ _ _
      (getBlobAvailableSigningKeysBody_consistent s)
  · exact recordMatches_of_consistent _ _ _ _ _ _
      (getBlobSigningKeyBody_consistent s keyMeta)
  · exact recordMatches_of_consistent _ _ _ _ _ _
      (postSignBlobBody_consistent s (some req))

/-- Witness for C7: one record with the required fields on a
`PostSignBlob` call. -/
theorem C7_exactly_one_log_record_witness :
    emitsOneRecord (PostSignBlob sAuth 5 (some reqKey1))
      "PostSignBlob" 201 5 (some reqKey1.digest) (some reqKey1.hashAlgorithm) :=
  (C7_exactly_one_log_record sAuth 5).2.2 reqKey1

/-- Claim C8: `GetBlobAvailableSigningKeys` always succeeds and returns
the identifiers of `KeyUsages["blob"]`; as long as the table stores
`true` for its members (the shape the configuration loader produces, the
spec's "set of authorized KeyIdentifier"), the returned set is exactly
the set of identifiers the authorization lookup accepts — the empty set
for an empty table. -/
theorem C8_available_keys_are_key_usages (s : SigningService) (et : Nat) :
    (GetBlobAvailableSigningKeys s et).outcome =
      .ok ⟨(s.keyUsages blobEndpoint).map (fun p => ⟨p.1⟩)⟩ ∧
    ((∀ p ∈ s.keyUsages blobEndpoint, p.2 = true) →
      ∀ ks, (GetBlobAvailableSigningKeys s et).outcome = .ok ks →
        ∀ id, KeyMeta.mk id ∈ ks.keys ↔
          lookupBool (s.keyUsages blobEndpoint) id = true) := by
  constructor
  · rfl
  · intro hall ks hks id
    have hks' : ks = ⟨(s.keyUsages blobEndpoint).map (fun p => ⟨p.1⟩)⟩ := by
      have : CallOutcome.ok (α := KeyMetas)
          ⟨(s.keyUsages blobEndpoint).map (fun p => ⟨p.1⟩)⟩ = .ok ks := hks
      cases this
      rfl
    subst hks'
    rw [lookupBool_true_iff _ _ hall]
    constructor
    · intro h
      rcases List.mem_map.mp h with ⟨p, hp, hpe⟩
      exact List.mem_map.mpr ⟨p, hp, congrArg KeyMeta.identifier hpe⟩
    · intro h
      rcases List.mem_map.mp h with ⟨p, hp, hpe⟩
      exact List.mem_map.mpr ⟨p, hp, congrArg KeyMeta.mk hpe⟩

/-- Witness for C8: under `KeyUsages["blob"] = {"key1"}` the returned set
is `{"key1"}` and membership coincides with authorization. -/
theorem C8_available_keys_are_key_usages_witness :
    (GetBlobAvailableSigningKeys sAuth 4).outcome = .ok ⟨[⟨"key1"⟩]⟩ ∧
    (KeyMeta.mk "key1" ∈ (KeyMetas.mk [⟨"key1"⟩]).keys ↔
      lookupBool (sAuth.keyUsages blobEndpoint) "key1" = true) :=
  ⟨(C8_available_keys_are_key_usages sAuth 4).1,
   (C8_available_keys_are_key_usages sAuth 4).2 (by decide) ⟨[⟨"key1"⟩]⟩
     (C8_available_keys_are_key_usages sAuth 4).1 "key1"⟩

end Crypki
